import Mathlib

/-!
Verification development for the NetraDrive transfer scheduler and
range-streaming subsystem.

The definitions below are a shallow embedding of the Python sources:
  * `app/services/cancel_manager.py`   (cancellation registry)
  * `app/services/transfer_manager.py` (scheduler: task table, executor,
    progress persistence, cancel, UI listing, deferred cleanup)
  * `app/utils/format_utils.py`        (`format_eta`)
  * `app/utils/progress.py`            (cooperative progress callback)
  * `app/routes/files.py` / `app/routes/share.py` (range-read endpoint)

Python dictionaries are modelled as association lists (`setT` mutates the
first matching key or appends, as dict assignment does), wall-clock reads
(`time.time()`) are explicit `now : ℚ` parameters, float arithmetic is
modelled over `ℚ`, and code that can raise returns `Except String`.
WebSocket pushes and MongoDB writes are recorded explicitly (events as an
output list, the progress collection as part of the scheduler state).
Calls into `app/services/progress_manager.py` (a module absent from the
sources, used only as `progress_manager.start/finish`) touch no state any
claim mentions and are omitted; timestamps stored by `datetime.utcnow()`
are likewise omitted from the durable record.
-/

attribute [local semireducible] Rat.add Rat.mul Rat.inv Rat.sub

namespace NetraDrive

/-- One entry of the in-memory task table (`TransferManager.tasks[task_id]`,
the dict built in `start_task`). `start_time` is `None` until the executor
stamps it. Byte counters are machine integers, modelled as `Int`. -/
structure Task where
  file_name : String
  status : String
  start_time : Option ℚ
  type : String
  transferred : Int
  total : Int
  user_id : String
deriving Repr, DecidableEq

/-- The durable progress document written by
`TransferManager._save_progress_db` (fields of the `$set` clause;
`updated_at`/`started_at` timestamps omitted). -/
structure ProgressRecord where
  file_name : String
  type : String
  status : String
  transferred : Int
  total : Int
  progress_percent : ℚ
  speed_bytes_per_sec : ℚ
  eta_seconds : Option ℚ
  eta_friendly : String
  user_id : String
deriving Repr, DecidableEq

/-- A WebSocket push performed via `ws_manager.send_to_user(user, json)`:
the receiving user, the `event` field, and the serialized task snapshot. -/
structure Event where
  user : String
  kind : String
  task : Task
deriving Repr, DecidableEq

/-- Python dict lookup `d.get(k)` on a string-keyed dict. -/
def lookupT {α : Type} : List (String × α) → String → Option α
  | [], _ => none
  | (k', v) :: rest, k => if k' = k then some v else lookupT rest k

/-- Python dict assignment `d[k] = v`: overwrite the existing entry or
append a new one (insertion order preserved, keys unique). -/
def setT {α : Type} : List (String × α) → String → α → List (String × α)
  | [], k, v => [(k, v)]
  | (k', v') :: rest, k, v =>
      if k' = k then (k, v) :: rest else (k', v') :: setT rest k v

/-- Python `d.pop(k, None)`: drop the entry if present. -/
def removeT {α : Type} (t : List (String × α)) (k : String) : List (String × α) :=
  t.filter (fun p => p.1 ≠ k)

/-- Process-wide scheduler state: `TransferManager.tasks`,
`CancelManager.tasks` (the flag dict), and the `progress_collection`
documents keyed by task id. -/
structure Sched where
  tasks : List (String × Task)
  flags : List (String × Bool)
  db : List (String × ProgressRecord)
deriving Repr, DecidableEq

/-- `CancelManager.is_cancelled`: `self.tasks.get(task_id, False)`. -/
def is_cancelled (flags : List (String × Bool)) (tid : String) : Bool :=
  (lookupT flags tid).getD false

/-- Rounding to two decimal places, standing in for Python `round(x, 2)`
on the float quantities (the claims below never depend on tie behavior). -/
def round2 (q : ℚ) : ℚ := ((q * 100 + 1 / 2).floor : ℚ) / 100

/-- `format_utils.format_eta`: `None ↦ "N/A"`, otherwise truncate to whole
seconds (all call sites pass non-negative values, where `int` = floor) and
render `"XhYmZs"` parts, hours and minutes only when warranted. -/
def format_eta (seconds : Option ℚ) : String :=
  match seconds with
  | none => "N/A"
  | some q =>
    let s := q.floor.toNat
    let hours := s / 3600
    let minutes := (s % 3600) / 60
    let sec := s % 60
    let p1 : List String := if 0 < hours then [toString hours ++ "h"] else []
    let p2 : List String := if 0 < minutes ∨ 0 < hours then [toString minutes ++ "m"] else []
    String.intercalate " " (p1 ++ p2 ++ [toString sec ++ "s"])

/-- The arithmetic and document built by `_save_progress_db` for one task.
When `start_time` is `None` (a queued task), the Python expression
`time.time() - task.get("start_time", time.time())` subtracts `None` from a
float and raises `TypeError` — modelled as the `.error` branch carrying the
interpreter's message. -/
def saveRecord (task : Task) (now : ℚ) : Except String ProgressRecord :=
  let transferred := task.transferred
  let total := task.total
  let percent : ℚ := if total ≠ 0 then (transferred : ℚ) / (total : ℚ) * 100 else 0
  match task.start_time with
  | none => .error "unsupported operand type(s) for -: 'float' and 'NoneType'"
  | some t0 =>
    let elapsed : ℚ := now - t0
    let speed : ℚ := if 0 < elapsed then (transferred : ℚ) / elapsed else 0
    let remaining : ℚ := max ((total : ℚ) - (transferred : ℚ)) 0
    let eta : Option ℚ := if 0 < speed then some (remaining / speed) else none
    .ok
      { file_name := task.file_name
        type := task.type
        status := task.status
        transferred := transferred
        total := total
        progress_percent := round2 percent
        speed_bytes_per_sec := round2 speed
        eta_seconds := match eta with
          | some q => if q ≠ 0 then some (round2 q) else none
          | none => none
        eta_friendly := format_eta eta
        user_id := task.user_id }

/-- `TransferManager._save_progress_db`: a missing task is a silent return;
otherwise upsert the computed record under the task id. -/
def saveProgressDb (st : Sched) (tid : String) (now : ℚ) : Except String Sched :=
  match lookupT st.tasks tid with
  | none => .ok st
  | some task =>
    match saveRecord task now with
    | .error e => .error e
    | .ok r => .ok { st with db := setT st.db tid r }

/-- `TransferManager.update_progress`: unknown task id returns silently;
otherwise the supplied counters and user are stored verbatim, the record
is persisted, and a `progress` event is pushed to the task's user. -/
def update_progress (st : Sched) (tid : String) (transferred total : Int)
    (user : String) (now : ℚ) : Except String (Sched × List Event) :=
  match lookupT st.tasks tid with
  | none => .ok (st, [])
  | some task =>
    let task1 := { task with transferred := transferred, total := total, user_id := user }
    let st1 : Sched := { st with tasks := setT st.tasks tid task1 }
    match saveProgressDb st1 tid now with
    | .error e => .error e
    | .ok st2 => .ok (st2, [⟨user, "progress", task1⟩])

/-- `TransferManager.cancel_task`: always set the cancellation flag; if the
task is tracked, overwrite its status with `"cancelled"`, update the
existing durable record's status (`update_one` without upsert: no record,
no write), and push a `cancelled` event. -/
def cancel_task (st : Sched) (tid : String) : Sched × List Event :=
  let flags1 := setT st.flags tid true
  match lookupT st.tasks tid with
  | none => ({ st with flags := flags1 }, [])
  | some task =>
    let task1 := { task with status := "cancelled" }
    let db1 := match lookupT st.db tid with
      | none => st.db
      | some r => setT st.db tid { r with status := "cancelled" }
    ({ tasks := setT st.tasks tid task1, flags := flags1, db := db1 },
      [⟨task1.user_id, "cancelled", task1⟩])

/-- `TransferManager._cleanup_task` after its sleep: remove the task from
the in-memory table iff it is still present and terminal. -/
def cleanup_task (st : Sched) (tid : String) : Sched :=
  match lookupT st.tasks tid with
  | none => st
  | some task =>
    if task.status = "completed" ∨ task.status = "cancelled" ∨ task.status = "failed"
    then { st with tasks := removeT st.tasks tid }
    else st

/-- `TransferManager.start_task` (task-id generation abstracted into the
`tid` argument; the asyncio queue insertion carries no claim-relevant
state). -/
def start_task (st : Sched) (tid file_name user : String) : Sched :=
  { st with
      tasks := setT st.tasks tid ⟨file_name, "queued", none, "main", 0, 0, user⟩
      flags := setT st.flags tid false }

/-- Membership test for a contiguous character run, starting at the head. -/
def matchesFront : List Char → List Char → Bool
  | [], _ => true
  | _ :: _, [] => false
  | p :: ps, x :: xs => p = x && matchesFront ps xs

/-- Containment of a contiguous character run anywhere in a list. -/
def containsSeq (pat : List Char) : List Char → Bool
  | [] => pat.isEmpty
  | x :: xs => matchesFront pat (x :: xs) || containsSeq pat xs

/-- Python's substring operator `pat in s`. -/
def strContains (s pat : String) : Bool := containsSeq pat.toList s.toList

/-- ASCII lowercasing of one character (`A`–`Z` shifted by 32). -/
def lowerChar (c : Char) : Char :=
  if 65 ≤ c.toNat ∧ c.toNat ≤ 90 then Char.ofNat (c.toNat + 32) else c

/-- Python `str.lower()`, modelled for ASCII text (the error messages the
classifier inspects are ASCII). -/
def toLowerAscii (s : String) : String := String.mk (s.toList.map lowerChar)

/-- The cancellation-attribution test of `_execute_task`'s `except` clause:
`cancel_manager.is_cancelled(task_id) or "cancelled" in str(e).lower()
or "NoneType" in str(e)`. -/
def classifyCancelled (flag : Bool) (msg : String) : Bool :=
  flag || strContains (toLowerAscii msg) "cancelled" || strContains msg "NoneType"

/-- Outcome of awaiting the operation body (`coro`): it either returns a
payload or raises with a message. -/
inductive OpResult
  | success (payload : String)
  | failure (msg : String)
deriving Repr, DecidableEq

/-- What `_execute_task` hands back to `run_task`'s caller: one of the
returned result dicts (identified by their `status` field, with the
captured payload or error string), or a propagated exception. -/
inductive ExecResult
  | notFound
  | completedRes (payload : String)
  | cancelledRes
  | failedRes (error : String)
  | raised (msg : String)
deriving Repr, DecidableEq

/-- Observable outcome of one `_execute_task` run: the final scheduler
state, the WebSocket events pushed (in order), whether the operation body
was ever started, whether `asyncio.create_task(self._cleanup_task(..))`
was reached, and the returned/raised result. -/
structure ExecOut where
  st : Sched
  events : List Event
  bodyStarted : Bool
  cleanupScheduled : Bool
  outcome : ExecResult
deriving Repr, DecidableEq

/-- The `finally` block of `_execute_task`: release the cancellation-flag
entry (`cancel_manager.finish`), persist, and — only if the persist did not
raise — schedule the deferred cleanup. Events pushed earlier in the `try`
are threaded through unchanged. -/
def finalizeExec (st : Sched) (tid : String) (now : ℚ) (evs : List Event)
    (res : ExecResult) : ExecOut :=
  let st1 : Sched := { st with flags := removeT st.flags tid }
  match saveProgressDb st1 tid now with
  | .error e => ⟨st1, evs, true, false, .raised e⟩
  | .ok st2 => ⟨st2, evs, true, true, res⟩

/-- `TransferManager._execute_task`. The pre-cancelled branch (flag already
set on entry) runs before the `try`, so its `_save_progress_db` call — which
always raises on a queued task, whose `start_time` is still `None` — is not
protected by the `finally`: no event is pushed and no cleanup is scheduled
there. The normal path stamps `start_time`, persists, awaits the body, and
classifies a failure with `classifyCancelled` against the flag read at that
moment. -/
def execute_task (st : Sched) (tid : String) (now : ℚ) (op : OpResult) : ExecOut :=
  match lookupT st.tasks tid with
  | none => ⟨st, [], false, false, .notFound⟩
  | some task =>
    if is_cancelled st.flags tid then
      let task1 := { task with status := "cancelled" }
      let st1 : Sched := { st with tasks := setT st.tasks tid task1
                                   flags := removeT st.flags tid }
      match saveProgressDb st1 tid now with
      | .error e => ⟨st1, [], false, false, .raised e⟩
      | .ok st2 => ⟨st2, [], false, false, .cancelledRes⟩
    else
      let task1 := { task with status := "in_progress", start_time := some now }
      let stR : Sched := { st with tasks := setT st.tasks tid task1 }
      match saveProgressDb stR tid now with
      | .error e => ⟨stR, [], false, false, .raised e⟩
      | .ok st2 =>
        match op with
        | .success payload =>
          let task2 := { task1 with status := "completed" }
          let st3 : Sched := { st2 with tasks := setT st2.tasks tid task2 }
          finalizeExec st3 tid now [⟨task2.user_id, "completed", task2⟩]
            (.completedRes payload)
        | .failure msg =>
          if classifyCancelled (is_cancelled st2.flags tid) msg then
            let task2 := { task1 with status := "cancelled" }
            let st3 : Sched := { st2 with tasks := setT st2.tasks tid task2 }
            finalizeExec st3 tid now [⟨task2.user_id, "cancelled", task2⟩]
              .cancelledRes
          else
            let task2 := { task1 with status := "failed" }
            let st3 : Sched := { st2 with tasks := setT st2.tasks tid task2 }
            finalizeExec st3 tid now [⟨task2.user_id, "failed", task2⟩]
              (.failedRes msg)

/-- `utils/progress.progress`: check the cancellation flag first and raise
`Exception("Transfer cancelled by user")` if set; otherwise forward the
counters to `transfer_manager.update_progress` (the trailing `print` has no
modelled effect). -/
def progressCallback (st : Sched) (current total : Int) (tid user : String)
    (now : ℚ) : Except String (Sched × List Event) :=
  if is_cancelled st.flags tid then .error "Transfer cancelled by user"
  else update_progress st tid current total user now

/-- Elapsed wall-clock time as computed in `get_tasks_for_ui`:
`time.time() - start_time if start_time else 0` (Python truthiness: both
`None` and `0.0` yield `0`). -/
def elapsedOf (task : Task) (now : ℚ) : ℚ :=
  match task.start_time with
  | none => 0
  | some t => if t = 0 then 0 else now - t

/-- One element of the listing built by `get_tasks_for_ui` (the
`format_bytes` display strings `transferred_hr`/`total_hr` are omitted:
no claim mentions them). -/
structure UiTask where
  task_id : String
  file_name : String
  status : String
  type : String
  progress_percent : ℚ
  transferred : Int
  total : Int
  speed_bytes_per_sec : ℚ
  eta_seconds : Option ℚ
  eta_friendly : String
  can_cancel : Bool
deriving Repr, DecidableEq

/-- The per-task arithmetic of `get_tasks_for_ui`. -/
def uiEntry (tid : String) (task : Task) (now : ℚ) : UiTask :=
  let transferred := task.transferred
  let total := task.total
  let percent : ℚ := if total ≠ 0 then (transferred : ℚ) / (total : ℚ) * 100 else 0
  let elapsed := elapsedOf task now
  let speed : ℚ := if 0 < elapsed then (transferred : ℚ) / elapsed else 0
  let remaining : ℚ := max ((total : ℚ) - (transferred : ℚ)) 0
  let eta : Option ℚ := if 0 < speed then some (remaining / speed) else none
  { task_id := tid
    file_name := task.file_name
    status := task.status
    type := task.type
    progress_percent := round2 percent
    transferred := transferred
    total := total
    speed_bytes_per_sec := round2 speed
    eta_seconds := match eta with
      | some q => if q ≠ 0 then some (round2 q) else none
      | none => none
    eta_friendly := format_eta eta
    can_cancel := task.status = "queued" ∨ task.status = "in_progress" }

/-- `TransferManager.get_tasks_for_ui`: skip tasks of other users when a
truthy `user_id` filter is given (`None` and `""` are falsy and disable the
filter), then render each remaining task. -/
def get_tasks_for_ui (st : Sched) (user : Option String) (now : ℚ) : List UiTask :=
  (st.tasks.filter (fun p =>
    match user with
    | none => true
    | some u => if u = "" then true else decide (p.2.user_id = u))).map
    (fun p => uiEntry p.1 p.2 now)

/-- Python `str.split(sep)` for a one-character separator: split at every
occurrence, keeping empty pieces; always returns at least one piece. -/
def splitChar (c : Char) : List Char → List (List Char)
  | [] => [[]]
  | x :: xs =>
    if x = c then [] :: splitChar c xs
    else
      match splitChar c xs with
      | [] => [[x]]
      | y :: ys => (x :: y) :: ys

/-- Decimal value of a digit run (the arithmetic behind Python `int`). -/
def digitsVal (l : List Char) : Nat :=
  l.foldl (fun a c => a * 10 + (c.toNat - 48)) 0

/-- The ASCII whitespace characters Python's `int()`/`str.strip()` strip
from both ends of a numeral string. -/
def isPyWs (c : Char) : Bool :=
  c = ' ' || c = '\t' || c = '\n' || c = '\r' || c = '\x0b' || c = '\x0c'

/-- Strip `isPyWs` characters from both ends, as `int()` does before
parsing. -/
def stripWs (l : List Char) : List Char :=
  ((l.dropWhile isPyWs).reverse.dropWhile isPyWs).reverse

/-- The numeral tail Python `int()` accepts after its first digit: further
digits, with single underscores permitted between two digits
(`1_0` parses, `1__0`/`10_` do not), accumulating the decimal value. -/
def digitsU (acc : Nat) : List Char → Option Nat
  | [] => some acc
  | c :: rest =>
    if c = '_' then
      match rest with
      | [] => none
      | c2 :: rest2 =>
        if c2.isDigit then digitsU (acc * 10 + (c2.toNat - 48)) rest2 else none
    else if c.isDigit then digitsU (acc * 10 + (c.toNat - 48)) rest else none

/-- The body of a Python `int()` numeral (after stripping and sign): a
digit followed by a `digitsU` tail. -/
def pyIntBody : List Char → Option Nat
  | [] => none
  | c :: rest => if c.isDigit then digitsU (c.toNat - 48) rest else none

/-- Python `int(s)` on the ASCII strings the range parser can receive
between the `=` and `-` separators: strip surrounding whitespace, allow a
single optional `+`/`-` sign, then an underscore-grouped digit run;
anything else raises (`none`). (Unicode digits and non-ASCII whitespace,
which `int()` also accepts, are outside the modelled alphabet.) -/
def pyInt (l : List Char) : Option Int :=
  match stripWs l with
  | [] => none
  | c :: rest =>
    if c = '+' then (pyIntBody rest).map (fun n : Nat => (n : Int))
    else if c = '-' then (pyIntBody rest).map (fun n : Nat => -(n : Int))
    else (pyIntBody (c :: rest)).map (fun n : Nat => (n : Int))

/-- Control-flow outcome of the `try` block parsing the `Range` header in
`download_file`/`access_shared_file`. `fallback`: the `except: pass` fired
before any bound was assigned (wrong `=`-arity, unit ≠ `bytes`, wrong
`-`-arity, unparseable start), or the unit test failed — both defaults
survive. `startOnly sb`: `int(start_str)` succeeded (so `start_byte := sb`
was assigned) but `int(end_str)` then raised — the mutated start survives
with the default end and status 200. `both sb eb`: both bounds assigned. -/
inductive ParseOut
  | fallback
  | startOnly (sb : Int)
  | both (sb eb : Int)
deriving Repr, DecidableEq

/-- The header-parsing `try` block of the range-read endpoints
(`routes/files.py::download_file` and `routes/share.py::access_shared_file`
contain the identical code). Empty bound strings take the defaults `0` and
`size - 1` without parsing. -/
def parseRange (size : Int) (h : List Char) : ParseOut :=
  match splitChar '=' h with
  | [u, r] =>
    if u = "bytes".toList then
      match splitChar '-' r with
      | [sL, eL] =>
        match (if sL.isEmpty then some 0 else pyInt sL) with
        | none => .fallback
        | some sb =>
          match (if eL.isEmpty then some (size - 1) else pyInt eL) with
          | none => .startOnly sb
          | some eb => .both sb eb
      | _ => .fallback
    else .fallback
  | _ => .fallback

/-- The decision the endpoint acts on: which bytes to stream under which
status code, or a 416 refusal. -/
inductive RangeResponse
  | notSatisfiable
  | stream (start stop : Int) (statusCode : Nat)
deriving Repr, DecidableEq

/-- Status/bound selection of the range-read endpoint: no header or a
parser failure keeps the defaults and status 200; a start-only mutation
keeps the default end and status 200; fully parsed bounds give 416 when
`start_byte >= file_size`, else 206. -/
def applyRange (size : Int) (header : Option (List Char)) : RangeResponse :=
  match header with
  | none => .stream 0 (size - 1) 200
  | some h =>
    match parseRange size h with
    | .fallback => .stream 0 (size - 1) 200
    | .startOnly sb => .stream sb (size - 1) 200
    | .both sb eb => if size ≤ sb then .notSatisfiable else .stream sb eb 206

/-- The closed byte interval `[a, b]` as the list of its offsets. -/
def intervalBytes (a b : Int) : List Int :=
  (List.range (b - a + 1).toNat).map (fun i : Nat => a + (i : Int))

/-- Modelled from the spec: `telegram_service.stream_file` — the body
generator both range-read endpoints pass to `StreamingResponse` — is absent
from the sources (only its call sites are). Spec §4.4: the body is a lazy
byte sequence covering `[start, min(end, size-1)]`, "scoped to exactly the
requested byte interval"; each element below stands for one byte offset of
the underlying file. -/
def stream_file (size start stop : Int) : List Int :=
  intervalBytes start (min stop (size - 1))

/-- An HTTP response of the range-read endpoint: status, the
`Content-Length`/`Content-Range`/`Accept-Ranges` headers, and the streamed
body (416 responses carry only `Content-Range`). -/
structure HttpResponse where
  statusCode : Nat
  contentLength : Option Int
  contentRange : String
  acceptRanges : Option String
  body : List Int
deriving Repr, DecidableEq

/-- The range-read endpoint (`download_file`; `access_shared_file` performs
the same range logic): headers computed from the *unclamped* bounds, the
body streamed by `stream_file`. -/
def download_file (size : Int) (header : Option (List Char)) : HttpResponse :=
  match applyRange size header with
  | .notSatisfiable =>
      { statusCode := 416
        contentLength := none
        contentRange := "bytes */" ++ toString size
        acceptRanges := none
        body := [] }
  | .stream s e code =>
      { statusCode := code
        contentLength := some (e - s + 1)
        contentRange := "bytes " ++ toString s ++ "-" ++ toString e ++ "/" ++ toString size
        acceptRanges := some "bytes"
        body := stream_file size s e }

/-- Concatenation of a syntactically well-formed `bytes=<start>-<end>`
header from its two bound strings. -/
def rangeHeaderChars (sL eL : List Char) : List Char :=
  "bytes".toList ++ '=' :: (sL ++ '-' :: eL)

/-! Concrete fixtures used by the counterexamples and witnesses below. -/

/-- Fixture: a finished (terminal) task still in the in-memory table,
i.e. inside the 10-minute retention window before `_cleanup_task` fires. -/
def doneTask : Task :=
  { file_name := "report.pdf", status := "completed", start_time := some 3,
    type := "main", transferred := 10, total := 10, user_id := "alice" }

/-- Fixture: scheduler state holding only `doneTask`, with its durable
record already written. -/
def doneSt : Sched :=
  { tasks := [("t1", doneTask)]
    flags := []
    db := [("t1",
      { file_name := "report.pdf", type := "main", status := "completed",
        transferred := 10, total := 10, progress_percent := 100,
        speed_bytes_per_sec := 2, eta_seconds := none, eta_friendly := "N/A",
        user_id := "alice" })] }

/-- Fixture: a queued task (`start_time` still unset). -/
def queuedTask : Task :=
  { file_name := "movie.mkv", status := "queued", start_time := none,
    type := "main", transferred := 0, total := 0, user_id := "bob" }

/-- Fixture: `queuedTask` with its cancellation flag already set — a task
cancelled while still waiting for a concurrency slot. -/
def queuedCancelledSt : Sched :=
  { tasks := [("t2", queuedTask)], flags := [("t2", true)], db := [] }

/-- Fixture: a second pre-cancelled queued state, for the finalization
claim. -/
def preCancelSt5 : Sched :=
  { tasks := [("t5", { queuedTask with file_name := "a.iso", user_id := "dan" })]
    flags := [("t5", true)], db := [] }

/-- Fixture: the same queued task admitted with its flag still unset. -/
def readySt5 : Sched :=
  { tasks := [("t5", { queuedTask with file_name := "a.iso", user_id := "dan" })]
    flags := [("t5", false)], db := [] }

/-- Fixture: a running task whose transfer has not reported yet. -/
def runTask0 : Task :=
  { file_name := "data.bin", status := "in_progress", start_time := some 0,
    type := "main", transferred := 0, total := 0, user_id := "carol" }

/-- Fixture: state holding only `runTask0`. -/
def c6st : Sched := { tasks := [("t6", runTask0)], flags := [("t6", false)], db := [] }

/-- Two consecutive progress reports, the second with a smaller
`transferred` than the first. -/
def c6after : Except String (Sched × List Event) := do
  let p ← update_progress c6st "t6" 5 10 "carol" 1
  update_progress p.1 "t6" 3 10 "carol" 2

/-- Fixture: a running task with unknown total but non-zero counters. -/
def uiTask0 : Task :=
  { file_name := "big.zip", status := "in_progress", start_time := some 5,
    type := "main", transferred := 100, total := 0, user_id := "erin" }

/-- Fixture: state holding only `uiTask0`. -/
def uiSt7 : Sched := { tasks := [("t7", uiTask0)], flags := [("t7", false)], db := [] }

/-- Fixture: a tracked running task for the classifier witness. -/
def c8st : Sched :=
  { tasks := [("t8", { runTask0 with file_name := "x.bin", user_id := "fred" })]
    flags := [("t8", false)], db := [] }

/-- Fixture: a state whose only flag entry is set, for the callback
witness. -/
def c9st : Sched :=
  { tasks := [("t9", runTask0)], flags := [("t9", true)], db := [] }

/-! Association-table lemmas shared by the proofs below. -/

theorem lookupT_setT_self {α : Type} (t : List (String × α)) (k : String) (v : α) :
    lookupT (setT t k v) k = some v := by
  induction t with
  | nil => simp [setT, lookupT]
  | cons p rest ih =>
    obtain ⟨k', v'⟩ := p
    by_cases h : k' = k <;> simp [setT, lookupT, h, ih]

theorem lookupT_removeT_self {α : Type} (t : List (String × α)) (k : String) :
    lookupT (removeT t k) k = none := by
  induction t with
  | nil => rfl
  | cons p rest ih =>
    obtain ⟨k', v'⟩ := p
    by_cases h : k' = k <;> simp [removeT, lookupT, h] at ih ⊢ <;> simp [ih]

/-- Claim C10: a progress update for a task id absent from the in-memory
table returns normally, writes nothing durable, emits no event and leaves
the scheduler state unchanged. -/
theorem C10_unknown_task_noop (st : Sched) (tid : String) (tr tot : Int)
    (u : String) (now : ℚ) (h : lookupT st.tasks tid = none) :
    update_progress st tid tr tot u now = .ok (st, []) := by
  simp [update_progress, h]

/-- Witness for C10 at a concrete late callback against an empty table. -/
theorem C10_unknown_task_noop_witness :
    update_progress { tasks := [], flags := [], db := [] } "gone" 7 9 "u" 4 =
      .ok ({ tasks := [], flags := [], db := [] }, []) :=
  C10_unknown_task_noop { tasks := [], flags := [], db := [] } "gone" 7 9 "u" 4 rfl

/-- Claim C9: the cooperative progress callback checks the cancellation
flag first and raises before forwarding anything when it is set — no state,
persistence or event results — and otherwise forwards the counters to the
scheduler's progress update verbatim. -/
theorem C9_callback_guard (st : Sched) (current total : Int) (tid user : String)
    (now : ℚ) :
    (is_cancelled st.flags tid = true →
        progressCallback st current total tid user now = .error "Transfer cancelled by user" ∧
        ∀ st' evs, progressCallback st current total tid user now ≠ .ok (st', evs)) ∧
    (is_cancelled st.flags tid = false →
        progressCallback st current total tid user now =
          update_progress st tid current total user now) := by
  constructor
  · intro h
    refine ⟨by simp [progressCallback, h], ?_⟩
    intro st' evs hc
    simp [progressCallback, h] at hc
  · intro h
    simp [progressCallback, h]

/-- Witness for C9: a cancelled flag makes the callback raise, an unset
flag makes it forward. -/
theorem C9_callback_guard_witness :
    progressCallback c9st 5 10 "t9" "carol" 2 = .error "Transfer cancelled by user" ∧
    progressCallback c6st 5 10 "t6" "carol" 2 = update_progress c6st "t6" 5 10 "carol" 2 :=
  ⟨((C9_callback_guard c9st 5 10 "t9" "carol" 2).1 (by decide)).1,
   (C9_callback_guard c6st 5 10 "t6" "carol" 2).2 (by decide)⟩

/-- Claim C2 (code bug): a task whose cancellation flag is set when the
executor admits it is marked cancelled in memory and its operation body is
never started, but — contrary to the claim — no cancelled event is pushed
and nothing is persisted: the persistence helper computes
`time.time() - start_time` with `start_time` still `None` and raises
`TypeError`, which propagates to the executor's caller. -/
theorem C2_precancelled_execution :
    execute_task queuedCancelledSt "t2" 7 (.success "uploaded") =
      { st := { tasks := [("t2", { queuedTask with status := "cancelled" })],
                flags := [], db := [] },
        events := [], bodyStarted := false, cleanupScheduled := false,
        outcome := .raised "unsupported operand type(s) for -: 'float' and 'NoneType'" } := by
  decide

/-- Claim C5 (code bug): in the cancelled-before-start path the
cancellation-flag entry is released but no deferred removal is ever
scheduled (the early return precedes the `try/finally`), so the task stays
in the table indefinitely; on a path whose body ran, finalization does
release the flag and schedule cleanup, and the later removal leaves the
durable record untouched. -/
theorem C5_finalization_paths :
    ((execute_task preCancelSt5 "t5" 7 (.success "p")).st.flags = [] ∧
     (execute_task preCancelSt5 "t5" 7 (.success "p")).cleanupScheduled = false ∧
     (lookupT (execute_task preCancelSt5 "t5" 7 (.success "p")).st.tasks "t5").isSome = true) ∧
    ((execute_task readySt5 "t5" 7 (.success "p")).cleanupScheduled = true ∧
     (execute_task readySt5 "t5" 7 (.success "p")).st.flags = [] ∧
     (cleanup_task (execute_task readySt5 "t5" 7 (.success "p")).st "t5").db =
       (execute_task readySt5 "t5" 7 (.success "p")).st.db ∧
     lookupT (cleanup_task (execute_task readySt5 "t5" 7 (.success "p")).st "t5").tasks "t5" = none) := by
  decide

/-- Claim C1 is refuted: `cancel_task` against a task whose state is
already terminal (`completed`, still within the retention window) moves it
to `cancelled` — the in-memory status is overwritten, the durable record's
status is rewritten, and a `cancelled` event is pushed. -/
theorem C1_cancel_overwrites_terminal :
    doneTask.status = "completed" ∧
    (lookupT (cancel_task doneSt "t1").1.tasks "t1").map Task.status = some "cancelled" ∧
    (lookupT (cancel_task doneSt "t1").1.db "t1").map ProgressRecord.status = some "cancelled" ∧
    (cancel_task doneSt "t1").2.map Event.kind = ["cancelled"] := by
  decide

/-- Claim C1 as amended: terminal states are indeed absorbing under
progress updates (a successful `update_progress` never changes the status
field) and under the deferred cleanup (which at most removes the entry),
but a cancel request against any tracked task — terminal or not —
overwrites its status with `cancelled`. -/
theorem C1_terminal_absorbing_amended (st : Sched) (tid : String) (task : Task)
    (hlook : lookupT st.tasks tid = some task) :
    (∀ tr tot u now st' evs, update_progress st tid tr tot u now = .ok (st', evs) →
        (lookupT st'.tasks tid).map Task.status = some task.status) ∧
    ((cleanup_task st tid).tasks = st.tasks ∨
        lookupT (cleanup_task st tid).tasks tid = none) ∧
    (lookupT (cancel_task st tid).1.tasks tid).map Task.status = some "cancelled" := by
  refine ⟨?_, ?_, ?_⟩
  · intro tr tot u now st' evs hup
    simp only [update_progress, hlook] at hup
    simp only [saveProgressDb, lookupT_setT_self] at hup
    cases hrec : saveRecord { task with transferred := tr, total := tot, user_id := u } now with
    | error e => rw [hrec] at hup; cases hup
    | ok r =>
      rw [hrec] at hup
      cases hup
      simp [lookupT_setT_self]
  · simp only [cleanup_task, hlook]
    split
    · right; simp [lookupT_removeT_self]
    · left; rfl
  · simp [cancel_task, hlook, lookupT_setT_self]

/-- Witness for the amended C1 at the concrete terminal-task state. -/
theorem C1_terminal_absorbing_amended_witness :
    ((cleanup_task doneSt "t1").tasks = doneSt.tasks ∨
        lookupT (cleanup_task doneSt "t1").tasks "t1" = none) ∧
    (lookupT (cancel_task doneSt "t1").1.tasks "t1").map Task.status = some "cancelled" :=
  ⟨(C1_terminal_absorbing_amended doneSt "t1" doneTask rfl).2.1,
   (C1_terminal_absorbing_amended doneSt "t1" doneTask rfl).2.2⟩

/-- Helper: `round(0, 2) = 0`. -/
theorem round2_zero : round2 0 = 0 := by decide

/-- Helper: rendering an ETA of exactly zero seconds gives `"0s"`. -/
theorem format_eta_zero : format_eta (some 0) = "0s" := by decide

/-- Claim C6 is refuted: `update_progress` commits whatever counters it is
handed. Two consecutive reports of 5 then 3 bytes on a running task leave a
committed record whose `transferred` went backwards, and a single report of
15 of 10 bytes commits `transferred > total`. -/
theorem C6_counters_not_enforced :
    ((update_progress c6st "t6" 5 10 "carol" 1).toOption.bind
        (fun p => (lookupT p.1.db "t6").map ProgressRecord.transferred) = some 5) ∧
    (c6after.toOption.bind
        (fun p => (lookupT p.1.db "t6").map ProgressRecord.transferred) = some 3) ∧
    (c6after.toOption.bind
        (fun p => (lookupT p.1.tasks "t6").map Task.status) = some "in_progress") ∧
    ((update_progress c6st "t6" 15 10 "carol" 1).toOption.bind
        (fun p => (lookupT p.1.db "t6").map (fun r => (r.transferred, r.total))) =
      some (15, 10)) := by
  decide

/-- Claim C6 as amended: `update_progress` stores the supplied counters
verbatim — into the task table and, when the write succeeds, into the
durable record — enforcing neither monotonicity nor `transferred ≤ total`;
the invariant holds exactly when the callers' reported sequence satisfies
it. -/
theorem C6_counters_stored_verbatim (st : Sched) (tid : String) (tr tot : Int)
    (u : String) (now : ℚ) (task : Task)
    (hlook : lookupT st.tasks tid = some task)
    (hst : task.start_time.isSome = true) :
    (update_progress st tid tr tot u now).toOption.map
        (fun p => ((lookupT p.1.tasks tid).map (fun t => (t.transferred, t.total, t.status)),
                   (lookupT p.1.db tid).map (fun r => (r.transferred, r.total, r.status)),
                   p.2.map Event.kind)) =
      some (some (tr, tot, task.status), some (tr, tot, task.status), ["progress"]) := by
  obtain ⟨t0, ht0⟩ := Option.isSome_iff_exists.mp hst
  simp [update_progress, hlook, saveProgressDb, lookupT_setT_self, saveRecord, ht0,
    Except.toOption]

/-- Witness for the amended C6 at a concrete running task. -/
theorem C6_counters_stored_verbatim_witness :
    (update_progress c6st "t6" 7 9 "u2" 3).toOption.map
        (fun p => ((lookupT p.1.tasks "t6").map (fun t => (t.transferred, t.total, t.status)),
                   (lookupT p.1.db "t6").map (fun r => (r.transferred, r.total, r.status)),
                   p.2.map Event.kind)) =
      some (some (7, 9, runTask0.status), some (7, 9, runTask0.status), ["progress"]) :=
  C6_counters_stored_verbatim c6st "t6" 7 9 "u2" 3 runTask0 rfl rfl

/-- Claim C7 is refuted: a task with `total = 0` but non-zero `transferred`
and positive elapsed time is listed with `progress_percent = 0` as claimed,
yet its `eta_friendly` is `"0s"` rather than `"N/A"` — the remaining-bytes
count is 0 and the positive speed turns the ETA into `0.0`, which
`format_eta` renders as `"0s"`. -/
theorem C7_zero_total_eta_zero_s :
    (get_tasks_for_ui uiSt7 none 15).map
        (fun e => (e.total, e.progress_percent, e.eta_friendly, e.eta_seconds)) =
      [(0, 0, "0s", none)] ∧ "0s" ≠ "N/A" := by
  decide

/-- Claim C7 as amended: with `total = 0` the listing always reports
`progress_percent = 0` and evaluates no division with a zero divisor, but
`eta_friendly` is `"N/A"` only when no positive speed is computable; with
positive elapsed time and positive `transferred` the ETA evaluates to zero
and is rendered `"0s"` (while `eta_seconds` is still `None`, zero being
falsy). -/
theorem C7_zero_total_amended (tid : String) (task : Task) (now : ℚ)
    (h : task.total = 0) :
    (uiEntry tid task now).progress_percent = 0 ∧
    (0 < elapsedOf task now ∧ 0 < task.transferred →
        (uiEntry tid task now).eta_friendly = "0s" ∧
        (uiEntry tid task now).eta_seconds = none) ∧
    (¬(0 < elapsedOf task now ∧ 0 < task.transferred) →
        (uiEntry tid task now).eta_friendly = "N/A" ∧
        (uiEntry tid task now).eta_seconds = none) := by
  have hcast : (task.total : ℚ) = 0 := by rw [h]; norm_num
  refine ⟨?_, ?_, ?_⟩
  · simp [uiEntry, h, round2_zero]
  · rintro ⟨he, htr⟩
    have htrq : (0 : ℚ) < (task.transferred : ℚ) := by exact_mod_cast htr
    have hspeed : (0 : ℚ) <
        (if 0 < elapsedOf task now then (task.transferred : ℚ) / elapsedOf task now else 0) := by
      rw [if_pos he]; exact div_pos htrq he
    have hrem : max ((task.total : ℚ) - (task.transferred : ℚ)) 0 = 0 := by
      rw [hcast]
      simp [max_eq_right, le_of_lt htrq]
    simp only [uiEntry, if_pos hspeed, hrem, zero_div]
    exact ⟨format_eta_zero, by simp⟩
  · intro hneg
    have hspeed : ¬ (0 : ℚ) <
        (if 0 < elapsedOf task now then (task.transferred : ℚ) / elapsedOf task now else 0) := by
      by_cases he : 0 < elapsedOf task now
      · rw [if_pos he]
        have htr : ¬ 0 < task.transferred := fun ht => hneg ⟨he, ht⟩
        have htrq : (task.transferred : ℚ) ≤ 0 := by exact_mod_cast not_lt.mp htr
        exact not_lt.mpr (div_nonpos_iff.mpr (Or.inr ⟨htrq, le_of_lt he⟩))
      · rw [if_neg he]; exact lt_irrefl 0
    simp [uiEntry, if_neg hspeed, format_eta]

/-- Witness for the amended C7 at the concrete zero-total task. -/
theorem C7_zero_total_amended_witness :
    (uiEntry "t7" uiTask0 15).progress_percent = 0 ∧
    (uiEntry "t7" uiTask0 15).eta_friendly = "0s" :=
  ⟨(C7_zero_total_amended "t7" uiTask0 15 rfl).1,
   ((C7_zero_total_amended "t7" uiTask0 15 rfl).2.1 ⟨by decide, by decide⟩).1⟩

/-- Claim C8: when the operation body raises, the executor records the
task as `cancelled` exactly when the cancellation flag is set or the error
text contains `"cancelled"` (after lowercasing) or the literal substring
`"NoneType"`; otherwise it records `failed` with the error message
captured — so an ordinary error mentioning `NoneType` is classified as a
cancellation even though none was requested. -/
theorem C8_failure_classification (st : Sched) (tid : String) (task : Task)
    (now : ℚ) (msg : String)
    (hlook : lookupT st.tasks tid = some task)
    (hflag : is_cancelled st.flags tid = false) :
    ((strContains (toLowerAscii msg) "cancelled" || strContains msg "NoneType") = true →
        (execute_task st tid now (.failure msg)).outcome = .cancelledRes ∧
        (lookupT (execute_task st tid now (.failure msg)).st.tasks tid).map Task.status =
          some "cancelled" ∧
        (execute_task st tid now (.failure msg)).events.map Event.kind = ["cancelled"]) ∧
    ((strContains (toLowerAscii msg) "cancelled" || strContains msg "NoneType") = false →
        (execute_task st tid now (.failure msg)).outcome = .failedRes msg ∧
        (lookupT (execute_task st tid now (.failure msg)).st.tasks tid).map Task.status =
          some "failed" ∧
        (execute_task st tid now (.failure msg)).events.map Event.kind = ["failed"]) ∧
    (∀ m, classifyCancelled true m = true) := by
  refine ⟨?_, ?_, fun m => by simp [classifyCancelled]⟩
  · intro htxt
    simp [execute_task, hlook, hflag, saveProgressDb, lookupT_setT_self, saveRecord,
      classifyCancelled, htxt, finalizeExec]
  · intro htxt
    have h1 : strContains (toLowerAscii msg) "cancelled" = false := by
      cases hc : strContains (toLowerAscii msg) "cancelled" <;> simp [hc] at htxt ⊢
    have h2 : strContains msg "NoneType" = false := by
      cases hc : strContains msg "NoneType" <;> simp [hc] at htxt ⊢
    simp [execute_task, hlook, hflag, saveProgressDb, lookupT_setT_self, saveRecord,
      classifyCancelled, h1, h2, finalizeExec]

/-- Witness for C8: the interpreter's own `TypeError` message — an
ordinary error text containing `NoneType` — is recorded as `cancelled`
with no cancellation requested, while a plain I/O error is recorded as
`failed` with its message. -/
theorem C8_failure_classification_witness :
    ((execute_task c8st "t8" 4
        (.failure "unsupported operand type(s) for -: 'float' and 'NoneType'")).outcome =
      .cancelledRes) ∧
    ((execute_task c8st "t8" 4 (.failure "connection reset by peer")).outcome =
      .failedRes "connection reset by peer") :=
  ⟨((C8_failure_classification c8st "t8"
      { runTask0 with file_name := "x.bin", user_id := "fred" } 4
      "unsupported operand type(s) for -: 'float' and 'NoneType'" rfl rfl).1 (by decide)).1,
   (((C8_failure_classification c8st "t8"
      { runTask0 with file_name := "x.bin", user_id := "fred" } 4
      "connection reset by peer" rfl rfl).2.1 (by decide)).1)⟩

/-! Lemmas about the header splitter, shared by the range-claim proofs. -/

theorem splitChar_of_not_mem {c : Char} {l : List Char} (h : c ∉ l) :
    splitChar c l = [l] := by
  induction l with
  | nil => rfl
  | cons x xs ih =>
    have hx : ¬ x = c := by rintro rfl; exact h (List.mem_cons_self _ _)
    have hxs : c ∉ xs := fun m => h (List.mem_cons_of_mem _ m)
    simp [splitChar, hx, ih hxs]

theorem splitChar_append {c : Char} {a : List Char} (b : List Char) (h : c ∉ a) :
    splitChar c (a ++ c :: b) = a :: splitChar c b := by
  induction a with
  | nil => simp [splitChar]
  | cons x xs ih =>
    have hx : ¬ x = c := by rintro rfl; exact h (List.mem_cons_self _ _)
    have hxs : c ∉ xs := fun m => h (List.mem_cons_of_mem _ m)
    simp [splitChar, hx, ih hxs]

theorem not_mem_of_all_digit {l : List Char} {c : Char}
    (hl : l.all Char.isDigit = true) (hc : c.isDigit = false) : c ∉ l := by
  intro hm
  rw [List.all_eq_true] at hl
  have := hl c hm
  rw [hc] at this
  cases this

theorem isPyWs_eq_false_of_digit {c : Char} (h : c.isDigit = true) :
    isPyWs c = false := by
  have h1 : ¬ c = ' ' := fun e => absurd (e ▸ h) (by decide)
  have h2 : ¬ c = '\t' := fun e => absurd (e ▸ h) (by decide)
  have h3 : ¬ c = '\n' := fun e => absurd (e ▸ h) (by decide)
  have h4 : ¬ c = '\r' := fun e => absurd (e ▸ h) (by decide)
  have h5 : ¬ c = '\x0b' := fun e => absurd (e ▸ h) (by decide)
  have h6 : ¬ c = '\x0c' := fun e => absurd (e ▸ h) (by decide)
  simp [isPyWs, h1, h2, h3, h4, h5, h6]

theorem dropWhile_eq_self_of_all {α : Type} (p : α → Bool) (l : List α)
    (h : ∀ c ∈ l, p c = false) : l.dropWhile p = l := by
  cases l with
  | nil => rfl
  | cons c rest => simp [List.dropWhile, h c (List.mem_cons_self c rest)]

theorem stripWs_eq_self_of_digits {l : List Char}
    (h : l.all Char.isDigit = true) : stripWs l = l := by
  have hws : ∀ c ∈ l, isPyWs c = false := fun c hc =>
    isPyWs_eq_false_of_digit (List.all_eq_true.mp h c hc)
  unfold stripWs
  rw [dropWhile_eq_self_of_all _ _ hws,
    dropWhile_eq_self_of_all _ _ (fun c hc => hws c (List.mem_reverse.mp hc)),
    List.reverse_reverse]

theorem digitsU_of_digits (l : List Char) : ∀ acc : Nat,
    l.all Char.isDigit = true →
    digitsU acc l = some (l.foldl (fun a c => a * 10 + (c.toNat - 48)) acc) := by
  induction l with
  | nil => intro acc _; rfl
  | cons c rest ih =>
    intro acc h
    simp only [List.all_cons, Bool.and_eq_true] at h
    obtain ⟨hc, hr⟩ := h
    have hus : ¬ c = '_' := fun e => absurd (e ▸ hc) (by decide)
    rw [digitsU.eq_def]
    simp only [if_neg hus, if_pos hc, List.foldl_cons]
    exact ih _ hr

/-- On a non-empty plain digit run — the shape well-formed headers carry —
the `int()` model agrees with the digit-run value. -/
theorem pyInt_of_digits {l : List Char} (h1 : l.isEmpty = false)
    (h2 : l.all Char.isDigit = true) : pyInt l = some (digitsVal l : Int) := by
  cases l with
  | nil => cases h1
  | cons c rest =>
    have hcr : c.isDigit = true ∧ rest.all Char.isDigit = true := by
      simpa only [List.all_cons, Bool.and_eq_true] using h2
    obtain ⟨hc, hr⟩ := hcr
    have hplus : ¬ c = '+' := fun e => absurd (e ▸ hc) (by decide)
    have hminus : ¬ c = '-' := fun e => absurd (e ▸ hc) (by decide)
    simp only [pyInt, stripWs_eq_self_of_digits h2, if_neg hplus, if_neg hminus,
      pyIntBody, if_pos hc, digitsU_of_digits rest (c.toNat - 48) hr,
      Option.map_some', digitsVal, List.foldl_cons, Nat.zero_mul, Nat.zero_add]

/-- A syntactically well-formed `bytes=<digits>-<digits>` header parses to
both bounds. -/
theorem parseRange_valid (size : Int) (sL eL : List Char)
    (hs1 : sL.isEmpty = false) (hs2 : sL.all Char.isDigit = true)
    (he1 : eL.isEmpty = false) (he2 : eL.all Char.isDigit = true) :
    parseRange size (rangeHeaderChars sL eL) =
      .both (digitsVal sL : Int) (digitsVal eL : Int) := by
  have hseq : ('=' : Char) ∉ sL := not_mem_of_all_digit hs2 (by decide)
  have heeq : ('=' : Char) ∉ eL := not_mem_of_all_digit he2 (by decide)
  have hsd : ('-' : Char) ∉ sL := not_mem_of_all_digit hs2 (by decide)
  have hed : ('-' : Char) ∉ eL := not_mem_of_all_digit he2 (by decide)
  have hbytes : ('=' : Char) ∉ "bytes".toList := by decide
  have hmid : ('=' : Char) ∉ sL ++ '-' :: eL := by
    intro hm
    rcases List.mem_append.mp hm with hm | hm
    · exact hseq hm
    · rcases List.mem_cons.mp hm with hm | hm
      · exact absurd hm (by decide)
      · exact heeq hm
  unfold rangeHeaderChars parseRange
  rw [splitChar_append _ hbytes, splitChar_of_not_mem hmid]
  simp only [if_pos rfl]
  rw [splitChar_append _ hsd, splitChar_of_not_mem hed]
  simp [pyInt_of_digits hs1 hs2, pyInt_of_digits he1 he2, hs1, he1]

/-- Claim C3: a well-formed `bytes=<start>-<end>` request with
`start < size` is answered 206 with `Content-Range: bytes start-end/size`,
`Content-Length = end-start+1`, `Accept-Ranges: bytes`, and a body covering
exactly `[start, min(end, size-1)]` — in particular never a byte at or past
`size`. -/
theorem C3_valid_range_served (size : Int) (sL eL : List Char)
    (hs1 : sL.isEmpty = false) (hs2 : sL.all Char.isDigit = true)
    (he1 : eL.isEmpty = false) (he2 : eL.all Char.isDigit = true)
    (hlt : (digitsVal sL : Int) < size) :
    (download_file size (some (rangeHeaderChars sL eL))).statusCode = 206 ∧
    (download_file size (some (rangeHeaderChars sL eL))).contentLength =
      some ((digitsVal eL : Int) - (digitsVal sL : Int) + 1) ∧
    (download_file size (some (rangeHeaderChars sL eL))).contentRange =
      "bytes " ++ toString (digitsVal sL : Int) ++ "-" ++ toString (digitsVal eL : Int) ++
        "/" ++ toString size ∧
    (download_file size (some (rangeHeaderChars sL eL))).acceptRanges = some "bytes" ∧
    (download_file size (some (rangeHeaderChars sL eL))).body =
      intervalBytes (digitsVal sL : Int) (min (digitsVal eL : Int) (size - 1)) ∧
    ∀ b ∈ (download_file size (some (rangeHeaderChars sL eL))).body,
      (digitsVal sL : Int) ≤ b ∧ b ≤ size - 1 := by
  have hp := parseRange_valid size sL eL hs1 hs2 he1 he2
  have hnotle : ¬ size ≤ (digitsVal sL : Int) := not_le.mpr hlt
  have hdl : download_file size (some (rangeHeaderChars sL eL)) =
      { statusCode := 206
        contentLength := some ((digitsVal eL : Int) - (digitsVal sL : Int) + 1)
        contentRange := "bytes " ++ toString (digitsVal sL : Int) ++ "-" ++
          toString (digitsVal eL : Int) ++ "/" ++ toString size
        acceptRanges := some "bytes"
        body := stream_file size (digitsVal sL : Int) (digitsVal eL : Int) } := by
    simp [download_file, applyRange, hp, if_neg hnotle]
  rw [hdl]
  refine ⟨rfl, rfl, rfl, rfl, rfl, ?_⟩
  intro b hb
  simp only [stream_file, intervalBytes, List.mem_map, List.mem_range] at hb
  obtain ⟨i, hi, rfl⟩ := hb
  rw [min_def] at hi
  split at hi <;> omega

/-- Witness for C3: `bytes=500-9999` on a 1000-byte file. -/
theorem C3_valid_range_served_witness :
    (download_file 1000 (some (rangeHeaderChars "500".toList "9999".toList))).statusCode = 206 ∧
    (download_file 1000 (some (rangeHeaderChars "500".toList "9999".toList))).contentLength =
      some ((digitsVal "9999".toList : Int) - (digitsVal "500".toList : Int) + 1) ∧
    (download_file 1000 (some (rangeHeaderChars "500".toList "9999".toList))).acceptRanges =
      some "bytes" ∧
    (download_file 1000 (some (rangeHeaderChars "500".toList "9999".toList))).body =
      intervalBytes (digitsVal "500".toList : Int)
        (min (digitsVal "9999".toList : Int) (1000 - 1)) :=
  ⟨(C3_valid_range_served 1000 "500".toList "9999".toList rfl (by decide) rfl (by decide)
      (by decide)).1,
   (C3_valid_range_served 1000 "500".toList "9999".toList rfl (by decide) rfl (by decide)
      (by decide)).2.1,
   (C3_valid_range_served 1000 "500".toList "9999".toList rfl (by decide) rfl (by decide)
      (by decide)).2.2.2.1,
   (C3_valid_range_served 1000 "500".toList "9999".toList rfl (by decide) rfl (by decide)
      (by decide)).2.2.2.2.1⟩

end NetraDrive
